import Mathlib

/-
Verification of the query-answering pipeline in `main.py`.

Shallow embedding conventions:
  * Python strings are Lean `String`s; character-level operations
    (`str.split`, `str.replace`, slicing) are defined on `List Char`
    and lifted through `String.data` / `String.mk`.
  * Python ints are Lean `Int`s.
  * Network calls (the Google custom-search API, page fetches, the
    Wikipedia API, the Gemini model call) are oracles packaged in an
    `Env` record; each call site consumes the oracle's outcome exactly
    as the Python code consumes the library's return value or exception.
  * Python exceptions are the `PyError` type threaded through `Except`.
  * The WebSocket transport is a small state machine: the client is an
    oracle `clientAliveAt : Nat → Bool` telling whether the n-th socket
    operation (receive or send, counted from 0) still finds the peer
    connected; an operation on a disconnected peer raises
    `PyError.wsDisconnect` (starlette's `WebSocketDisconnect`).
-/

set_option maxHeartbeats 1600000
set_option maxRecDepth 16000

deriving instance DecidableEq for Except

/-- Python's `str.isspace` characters that matter for `str.split()`
(ASCII whitespace; the code never feeds other Unicode space classes). -/
def pySpace (c : Char) : Bool :=
  c == ' ' || c == '\t' || c == '\n' || c == '\r' || c == '\x0b' || c == '\x0c'

/-- Emit the (reversed) accumulator of a token being built, if nonempty. -/
def flushAcc (acc : List Char) : List (List Char) :=
  match acc with
  | [] => []
  | _ :: _ => [acc.reverse]

/-- Worker for Python `str.split()` (no separator argument): split on runs
of whitespace, drop empty tokens.  `acc` holds the current token reversed. -/
def splitWSAux : List Char → List Char → List (List Char)
  | [], acc => flushAcc acc
  | c :: rest, acc =>
    if pySpace c then flushAcc acc ++ splitWSAux rest []
    else splitWSAux rest (c :: acc)

/-- Python `s.split()` on a character list. -/
def splitWS (s : List Char) : List (List Char) := splitWSAux s []

/-- Python `' '.join(tokens)` on character lists. -/
def joinSp : List (List Char) → List Char
  | [] => []
  | [t] => t
  | t :: t2 :: ts => t ++ ' ' :: joinSp (t2 :: ts)

/-- `extract_keywords` (main.py line 107): `return query.split()`. -/
def extract_keywords (query : String) : List String :=
  (splitWS query.data).map fun t => String.mk t

/-- `generate_search_query` (main.py line 111): `return ' '.join(keywords)`. -/
def generate_search_query (keywords : List String) : String :=
  String.mk (joinSp (keywords.map fun k => k.data))

/-- Worker for Python `s.replace(pat, rep)`, structurally recursive on a
fuel counter so that it evaluates inside the kernel.  The fuel is
initialized to `s.length`; every recursive call consumes at least one
character of `s`, so the out-of-fuel branch is never reached. -/
def pyReplaceAux (rep : List Char) : Nat → List Char → List Char → List Char
  | _, s', [] => s'
  | _, [], _ :: _ => []
  | 0, _ :: _, _ :: _ => []
  | fuel + 1, c :: rest, p :: ps =>
    if (p :: ps).isPrefixOf (c :: rest) then
      rep ++ pyReplaceAux rep fuel (rest.drop ps.length) (p :: ps)
    else
      c :: pyReplaceAux rep fuel rest (p :: ps)

/-- Python `s.replace(pat, rep)`: replace every non-overlapping occurrence of
`pat` left to right.  The empty-pattern case (which Python treats specially)
never arises in this code base; it is mapped to the identity. -/
def pyReplace (s pat rep : List Char) : List Char :=
  pyReplaceAux rep s.length s pat

/-- `render_latex` (main.py line 186):
`text.replace("$", "\\(").replace("$$", "\\[").replace("$$", "\\]")`. -/
def render_latex (text : List Char) : List Char :=
  pyReplace (pyReplace (pyReplace text "$".data "\\(".data) "$$".data "\\[".data)
    "$$".data "\\]".data

/-- `render_latex` lifted to `String`. -/
def renderLatexStr (text : String) : String :=
  String.mk (render_latex text.data)

/-- Python slice `s[:n]` on a string. -/
def strTake (n : Nat) (s : String) : String :=
  String.mk (s.data.take n)

/-- Python's `in` operator on strings: `pat` occurs as a contiguous
substring of `s`. -/
def strContains (pat : List Char) : List Char → Bool
  | [] => pat.isPrefixOf []
  | c :: rest => pat.isPrefixOf (c :: rest) || strContains pat rest

/-- One item of the Google custom-search response (`link`, `title`,
`snippet` are the only keys the code reads). -/
structure SearchResult where
  link : String
  title : String
  snippet : String
deriving DecidableEq

/-- The lightweight public view sent to clients (`googleResults`). -/
structure PubResult where
  link : String
  title : String
  snippet : String
deriving DecidableEq

/-- An httpx response as far as `fetch_content` inspects it. -/
structure HttpResp where
  statusCode : Int
  text : String

/-- The Google custom-search API response as far as `perform_search`
inspects it: HTTP status, raw body text, and the parsed `items` field of
the JSON body when present. -/
structure SearchApiResp where
  statusCode : Int
  text : String
  items : Option (List SearchResult)

/-- The single request `perform_search` issues (URL and the parameters the
claims are about; the API key and engine id are opaque configuration). -/
structure SearchRequest where
  url : String
  q : String
  start : Int
deriving DecidableEq

/-- Python exceptions distinguished by the handlers in main.py. -/
inductive PyError where
  | wsDisconnect
  | httpStatusError (statusCode : Int) (body : String)
  | other (msg : String)
deriving DecidableEq

/-- `str(e)` as used by the catch-all handlers.  The first two branches are
unreachable in the synchronous transport (no WebSocket) resp. caught by the
dedicated `httpx.HTTPStatusError` handler first. -/
def PyError.toStr : PyError → String
  | .wsDisconnect => "WebSocketDisconnect"
  | .httpStatusError _ body => body
  | .other msg => msg

/-- Oracle environment for one pipeline run: the outcome of every external
interaction, plus the streaming client's behaviour. -/
structure Env where
  /-- Outcome of `websocket.receive_json()` + `SearchQuery(**data)` +
  `data.get("page", 1)`: the parsed `(query, page)` pair, or the exception
  raised by JSON parsing / validation. -/
  recvd : Except PyError (String × Int)
  /-- The Google custom-search API's response for this run's single call. -/
  searchResp : SearchApiResp
  /-- The HTTP response `fetch_content` receives for each URL. -/
  fetchResp : String → HttpResp
  /-- BeautifulSoup paragraph extraction (`parse_content`), abstracted:
  HTML parsing is an external library. -/
  parsed : String → String
  /-- Outcome of the two-call Wikipedia lookup in `fetch_wikipedia_content`
  for a given keyword list (the extract found, "" when no match, or the
  exception from either call). -/
  wikiResp : List String → Except PyError String
  /-- Outcome of `model.generate_content(ctx).text` for a context string. -/
  genResp : String → Except PyError String
  /-- Whether the streaming peer is still connected when the n-th socket
  operation is performed. -/
  clientAliveAt : Nat → Bool

/-- `perform_search` (main.py line 115): builds the request with
`start = (page - 1) * 10 + 1`, issues exactly one GET (the returned
`SearchRequest`), `raise_for_status()`s (httpx raises for 4xx/5xx), and
returns `response.json().get("items", [])`. -/
def perform_search (env : Env) (search_query : String) (page : Int) :
    SearchRequest × Except PyError (List SearchResult) :=
  let params : SearchRequest :=
    { url := "https://www.googleapis.com/customsearch/v1", q := search_query,
      start := (page - 1) * 10 + 1 }
  (params,
    if 400 ≤ env.searchResp.statusCode then
      .error (.httpStatusError env.searchResp.statusCode env.searchResp.text)
    else
      .ok (env.searchResp.items.getD []))

/-- `evaluate_and_filter_results` (main.py line 128): `return results[:10]`. -/
def evaluate_and_filter_results (results : List SearchResult) : List SearchResult :=
  results.take 10

/-- `fetch_content` (main.py line 133): GET the URL; raise on a Cloudflare
block (403 with "cloudflare" in the lower-cased body) or any 4xx/5xx
status (`raise_for_status`); otherwise return the body text. -/
def fetch_content (env : Env) (url : String) : Except PyError String :=
  let response := env.fetchResp url
  if response.statusCode == 403 &&
      strContains "cloudflare".data (response.text.data.map Char.toLower) then
    .error (.other "Blocked by Cloudflare")
  else if 400 ≤ response.statusCode then
    .error (.httpStatusError response.statusCode response.text)
  else
    .ok response.text

/-- `parse_content` (main.py line 145): BeautifulSoup paragraph text,
abstracted as the environment's parser oracle. -/
def parse_content (env : Env) (html_content : String) : String :=
  env.parsed html_content

/-- `fetch_wikipedia_content` (main.py line 153): searches Wikipedia for
the keywords and fetches the best match's plain-text extract (two HTTP
calls abstracted as one oracle outcome). -/
def fetch_wikipedia_content (env : Env) (keywords : List String) :
    Except PyError String :=
  env.wikiResp keywords

/-- The `for source in sources` loop of `summarize_results` (main.py lines
173-175): fetch and parse each source in order, accumulating
`parse_content(html) + "\n\n"`.  Returns the list of URLs actually fetched
(the loop stops at the first failure, which propagates) and the
accumulated content or the first error. -/
def fetchLoop (env : Env) (sources : List String) :
    List String × Except PyError String :=
  match sources with
  | [] => ([], .ok "")
  | url :: rest =>
    match fetch_content env url with
    | .error e => ([url], .error e)
    | .ok html_content =>
      match fetchLoop env rest with
      | (att, .error e) => (url :: att, .error e)
      | (att, .ok content) =>
        (url :: att, .ok (parse_content env html_content ++ "\n\n" ++ content))

/-- `summarize_results` (main.py line 168).  First component: the source
URLs whose fetch was attempted (for observing the loop's early abort);
second: the `(summary, sources)` pair or the first exception.  On an empty
result list, `results[0]["title"]` raises `IndexError` (message
"list index out of range"). -/
def summarize_results (env : Env) (results : List SearchResult) :
    List String × Except PyError (String × List String) :=
  let sources := (results.take 3).map fun r => r.link
  match fetchLoop env sources with
  | (att, .error e) => (att, .error e)
  | (att, .ok content) =>
    match results with
    | [] => (att, .error (.other "list index out of range"))
    | r0 :: _ =>
      match fetch_wikipedia_content env (extract_keywords r0.title) with
      | .error e => (att, .error e)
      | .ok wikipedia_content =>
        let ctx := content ++ wikipedia_content ++ "\n\n"
        match env.genResp ctx with
        | .error e => (att, .error e)
        | .ok response_text =>
          (att, .ok (renderLatexStr (strTake 300 response_text), sources))

/-- The response of the synchronous `/search` endpoint: the success JSON
body, or the `HTTPException` raised. -/
inductive SyncResp where
  | ok (result : String) (sources : List String) (googleResults : List PubResult)
  | httpException (statusCode : Int) (detail : String)
deriving DecidableEq

/-- The `try` body of the `/search` endpoint (main.py lines 84-101). -/
def searchBody (env : Env) (query : String) (page : Int) :
    Except PyError (String × List String × List PubResult) := do
  let keywords := extract_keywords query
  let search_query := generate_search_query keywords
  let search_results ← (perform_search env search_query page).2
  let filtered_results := evaluate_and_filter_results search_results
  let (summary, sources) ← (summarize_results env filtered_results).2
  return (summary, sources,
    filtered_results.map fun r =>
      { link := r.link, title := r.title, snippet := r.snippet })

/-- The `/search` endpoint `search` (main.py line 82): on
`httpx.HTTPStatusError` re-raise with the upstream status and body, on any
other exception raise 500 with `str(e)`. -/
def search (env : Env) (query : String) (page : Int) : SyncResp :=
  match searchBody env query page with
  | .ok (summary, sources, googleResults) => .ok summary sources googleResults
  | .error (.httpStatusError s body) => .httpException s body
  | .error e => .httpException 500 e.toStr

/-- One JSON message the WebSocket handler sends (every message carries a
`status` field; the other fields depend on the message kind). -/
inductive Msg where
  | plain (statusLabel : String)
  | google (statusLabel : String) (googleResults : List PubResult)
  | completed (statusLabel : String) (result : String) (sources : List String)
  | err (statusLabel : String) (detail : String)
deriving DecidableEq

/-- The `status` field of a message. -/
def Msg.statusOf : Msg → String
  | .plain s => s
  | .google s _ => s
  | .completed s _ _ => s
  | .err s _ => s

/-- Mutable observables of one WebSocket session: how many socket
operations were performed, every send attempted (with whether it was
delivered), and whether a `WebSocketDisconnect` was observed (starlette's
`client_state == DISCONNECTED`). -/
structure St where
  opIdx : Nat
  attempts : List (Msg × Bool)
  observedDisc : Bool
deriving DecidableEq

/-- Perform one socket operation: succeeds iff the peer is still
connected at this operation index. -/
def opStep (env : Env) (st : St) : St × Bool :=
  if env.clientAliveAt st.opIdx then
    ({ st with opIdx := st.opIdx + 1 }, true)
  else
    ({ st with opIdx := st.opIdx + 1, observedDisc := true }, false)

/-- `await websocket.send_json(m)`: the attempt is recorded either way; on
a disconnected peer it raises `WebSocketDisconnect`. -/
def wsSend (env : Env) (st : St) (m : Msg) : St × Except PyError Unit :=
  match opStep env st with
  | (st1, true) => ({ st1 with attempts := st1.attempts ++ [(m, true)] }, .ok ())
  | (st1, false) => ({ st1 with attempts := st1.attempts ++ [(m, false)] }, .error .wsDisconnect)

/-- `await websocket.receive_json()` + validation: raises
`WebSocketDisconnect` on a disconnected peer, otherwise yields the
environment's parse outcome. -/
def wsRecv (env : Env) (st : St) : St × Except PyError (String × Int) :=
  match opStep env st with
  | (st1, true) => (st1, env.recvd)
  | (st1, false) => (st1, .error .wsDisconnect)

/-- Sequencing with early exit on a raised exception, threading the
session state. -/
def wsStep {α β : Type} (r : St × Except PyError α)
    (k : St → α → St × Except PyError β) : St × Except PyError β :=
  match r with
  | (st1, .ok a) => k st1 a
  | (st1, .error e) => (st1, .error e)

/-- The `try` body of `websocket_search` (main.py lines 28-69): receive
the query, then alternate status sends with pipeline stages, ending with
the `Completed` message. -/
def wsBody (env : Env) (st : St) : St × Except PyError Unit :=
  wsStep (wsRecv env st) fun st qp =>
  wsStep (wsSend env st (.plain "Extracting keywords...")) fun st _ =>
  let keywords := extract_keywords qp.1
  wsStep (wsSend env st (.plain "Generating search query...")) fun st _ =>
  let search_query := generate_search_query keywords
  wsStep (wsSend env st (.plain "Performing search...")) fun st _ =>
  wsStep (st, (perform_search env search_query qp.2).2) fun st search_results =>
  wsStep (wsSend env st (.plain "Evaluating and filtering results...")) fun st _ =>
  let filtered_results := evaluate_and_filter_results search_results
  wsStep (wsSend env st (.google "Google results ready"
    (filtered_results.map fun r =>
      { link := r.link, title := r.title, snippet := r.snippet }))) fun st _ =>
  wsStep (wsSend env st (.plain "Summarizing results...")) fun st _ =>
  wsStep (st, (summarize_results env filtered_results).2) fun st sp =>
  wsStep (wsSend env st (.completed "Completed" sp.1 sp.2)) fun st _ =>
  (st, .ok ())

/-- The final observables of one `websocket_search` invocation. -/
structure RunResult where
  finalSt : St
  /-- Whether the `finally` block called `websocket.close()`. -/
  serverClosed : Bool
  /-- An exception escaping the handler (only possible when the
  error-reporting send in an `except` clause itself raises). -/
  unhandled : Option PyError
deriving DecidableEq

/-- An `except` clause's `await websocket.send_json({"status": "Error",
"detail": detail})`; its own failure escapes the handler. -/
def handleErrSend (env : Env) (st1 : St) (detail : String) : St × Option PyError :=
  match wsSend env st1 (Msg.err "Error" detail) with
  | (st2, .ok _) => (st2, none)
  | (st2, .error e) => (st2, some e)

/-- `websocket_search` (main.py line 24): run the body; on
`WebSocketDisconnect` only log; on `httpx.HTTPStatusError` send an Error
event with the upstream body; on any other exception send an Error event
with `str(e)`; finally close the socket unless the client's disconnect
was observed. -/
def websocket_search (env : Env) : RunResult :=
  let b := wsBody env { opIdx := 0, attempts := [], observedDisc := false }
  let h : St × Option PyError :=
    match b.2 with
    | .ok _ => (b.1, none)
    | .error .wsDisconnect => (b.1, none)
    | .error (.httpStatusError _ body) => handleErrSend env b.1 body
    | .error (.other msg) => handleErrSend env b.1 msg
  { finalSt := h.1, serverClosed := !h.1.observedDisc, unhandled := h.2 }

/-- The messages actually delivered to the client, in order. -/
def delivered (st : St) : List Msg :=
  st.attempts.filterMap fun p => if p.2 then some p.1 else none

/-- The sequence of `status` labels delivered over the WebSocket during a
run. -/
def wsStatuses (env : Env) : List String :=
  (delivered (websocket_search env).finalSt).map Msg.statusOf

/-- A concrete fully-successful run (client never disconnects, every
external call succeeds). -/
def c1Env : Env :=
  { recvd := .ok ("solar eclipse 2026", 1),
    searchResp :=
      { statusCode := 200, text := "",
        items := some [{ link := "http://a", title := "Solar", snippet := "s" }] },
    fetchResp := fun _ => { statusCode := 200, text := "body" },
    parsed := fun _ => "text",
    wikiResp := fun _ => .ok "wiki",
    genResp := fun _ => .ok "sum",
    clientAliveAt := fun _ => true }

/-- A search result fed to the summary-length counterexample. -/
def c2R : SearchResult := { link := "http://a", title := "T", snippet := "s" }

/-- A successful run whose model response is 151 dollar signs: short
enough to survive the 300-character truncation untouched, long enough
that the `$` → `\(` escaping afterwards pushes the summary past 300. -/
def c2Env : Env :=
  { recvd := .ok ("q", 1),
    searchResp := { statusCode := 200, text := "", items := some [c2R] },
    fetchResp := fun _ => { statusCode := 200, text := "" },
    parsed := fun _ => "",
    wikiResp := fun _ => .ok "",
    genResp := fun _ => .ok (String.mk (List.replicate 151 '$')),
    clientAliveAt := fun _ => true }

/-- First search result of the fetch-isolation counterexample: its page
fetch returns HTTP 404. -/
def c3R1 : SearchResult := { link := "http://a", title := "A", snippet := "sa" }

/-- Second search result of the fetch-isolation counterexample: its page
would fetch fine, but the loop never reaches it. -/
def c3R2 : SearchResult := { link := "http://b", title := "B", snippet := "sb" }

/-- A run in which the first of two source URLs answers 404 and the
second would succeed. -/
def c3Env : Env :=
  { recvd := .ok ("q", 1),
    searchResp := { statusCode := 200, text := "", items := some [c3R1, c3R2] },
    fetchResp := fun u =>
      if u = "http://a" then { statusCode := 404, text := "nf" }
      else { statusCode := 200, text := "page" },
    parsed := fun _ => "text",
    wikiResp := fun _ => .ok "",
    genResp := fun _ => .ok "",
    clientAliveAt := fun _ => true }

/-- A run in which the search API answers HTTP 403 with body "Forbidden"
and the client stays connected. -/
def c4Env : Env :=
  { recvd := .ok ("q", 1),
    searchResp := { statusCode := 403, text := "Forbidden", items := none },
    fetchResp := fun _ => { statusCode := 200, text := "" },
    parsed := fun _ => "",
    wikiResp := fun _ => .ok "",
    genResp := fun _ => .ok "",
    clientAliveAt := fun _ => true }

/-- A run in which every stage would succeed but the client disconnects
after the fourth socket operation (right after the "Performing search..."
event). -/
def c5EnvW : Env :=
  { recvd := .ok ("q", 1),
    searchResp :=
      { statusCode := 200, text := "",
        items := some [{ link := "http://a", title := "Solar", snippet := "s" }] },
    fetchResp := fun _ => { statusCode := 200, text := "body" },
    parsed := fun _ => "text",
    wikiResp := fun _ => .ok "wiki",
    genResp := fun _ => .ok "s",
    clientAliveAt := fun n => decide (n < 4) }

/-- A run in which the client disconnects after the fourth socket
operation and the search API then answers HTTP 403: the error-reporting
send of the `except httpx.HTTPStatusError` handler hits the closed
connection. -/
def c5EnvC : Env :=
  { recvd := .ok ("q", 1),
    searchResp := { statusCode := 403, text := "denied", items := none },
    fetchResp := fun _ => { statusCode := 200, text := "" },
    parsed := fun _ => "",
    wikiResp := fun _ => .ok "",
    genResp := fun _ => .ok "",
    clientAliveAt := fun n => decide (n < 4) }

/-- An arbitrary concrete environment for instantiating the search-client
contract. -/
def c8Env : Env :=
  { recvd := .ok ("q", 1),
    searchResp := { statusCode := 200, text := "", items := none },
    fetchResp := fun _ => { statusCode := 200, text := "" },
    parsed := fun _ => "",
    wikiResp := fun _ => .ok "",
    genResp := fun _ => .ok "",
    clientAliveAt := fun _ => true }

/-- A run whose search response is 200 but has no `items` field, so the
filtered result set is empty. -/
def c10Env : Env :=
  { recvd := .ok ("q", 1),
    searchResp := { statusCode := 200, text := "", items := none },
    fetchResp := fun _ => { statusCode := 200, text := "" },
    parsed := fun _ => "",
    wikiResp := fun _ => .ok "",
    genResp := fun _ => .ok "",
    clientAliveAt := fun _ => true }

attribute [simp] Msg.statusOf PyError.toStr opStep wsSend wsRecv wsStep wsBody
  websocket_search handleErrSend delivered wsStatuses perform_search searchBody
  search

/-- C6: for every input list of search results, the Result Filter returns
a prefix of the input of length exactly `min(10, length input)`, in the
original order.  It is a total Lean function, hence never fails. -/
theorem resultFilter_prefix_min (results : List SearchResult) :
    (evaluate_and_filter_results results).length = min 10 results.length ∧
    evaluate_and_filter_results results <+: results := by
  refine ⟨?_, ?_⟩
  · simp [evaluate_and_filter_results]
  · exact List.take_prefix 10 results

/-- C8: for every page number at least 1, `perform_search` issues exactly
one search API call (the model returns the single `SearchRequest` built)
whose pagination offset is `(page - 1) * 10 + 1`, and — when the upstream
status is not an error — returns the response's `items` array, or the
empty list when `items` is absent. -/
theorem performSearch_request_offset (env : Env) (search_query : String)
    (page : Int) (hpage : 1 ≤ page) :
    (perform_search env search_query page).1.start = (page - 1) * 10 + 1 ∧
    (env.searchResp.statusCode < 400 →
      (perform_search env search_query page).2 =
        .ok (env.searchResp.items.getD [])) ∧
    (env.searchResp.statusCode < 400 → env.searchResp.items = none →
      (perform_search env search_query page).2 = .ok []) := by
  refine ⟨rfl, fun h => ?_, fun h hnone => ?_⟩
  · simp [perform_search, not_le.mpr h]
  · simp [perform_search, not_le.mpr h, hnone]

/-- C8 witness: with page 1 the offset is `(1 - 1) * 10 + 1 = 1`. -/
theorem performSearch_request_offset_witness :
    (perform_search c8Env "solar eclipse 2026" 1).1.start = (1 - 1) * 10 + 1 ∧
    (c8Env.searchResp.statusCode < 400 →
      (perform_search c8Env "solar eclipse 2026" 1).2 =
        .ok (c8Env.searchResp.items.getD [])) ∧
    (c8Env.searchResp.statusCode < 400 → c8Env.searchResp.items = none →
      (perform_search c8Env "solar eclipse 2026" 1).2 = .ok []) :=
  performSearch_request_offset c8Env "solar eclipse 2026" 1 (by norm_num)

/-- A nonempty reversed accumulator flushes to the singleton of the
original token. -/
theorem flushAcc_reverse (t : List Char) (h : t ≠ []) :
    flushAcc t.reverse = [t] := by
  cases ht : t.reverse with
  | nil =>
    rw [List.reverse_eq_nil_iff] at ht
    exact absurd ht h
  | cons c cs =>
    show [(c :: cs).reverse] = [t]
    rw [← ht, List.reverse_reverse]

/-- With a nonempty accumulator the splitter never returns the empty
token list. -/
theorem splitWSAux_acc_ne (s : List Char) :
    ∀ acc, acc ≠ [] → splitWSAux s acc ≠ [] := by
  induction s with
  | nil =>
    intro acc h
    cases acc with
    | nil => exact absurd rfl h
    | cons a as => simp [splitWSAux, flushAcc]
  | cons c rest ih =>
    intro acc h
    cases hc : pySpace c with
    | true =>
      simp only [splitWSAux, hc, if_true]
      cases acc with
      | nil => exact absurd rfl h
      | cons a as => simp [flushAcc]
    | false =>
      simp only [splitWSAux, hc, Bool.false_eq_true, if_false]
      exact ih (c :: acc) (List.cons_ne_nil c acc)

/-- If the input contains a non-whitespace character, the splitter
produces at least one token. -/
theorem splitWSAux_ne_nil (s : List Char) :
    ∀ acc, (∃ c ∈ s, pySpace c = false) → splitWSAux s acc ≠ [] := by
  induction s with
  | nil =>
    intro acc h
    obtain ⟨c, hc, -⟩ := h
    exact absurd hc (List.not_mem_nil c)
  | cons c rest ih =>
    intro acc h
    cases hc : pySpace c with
    | false =>
      simp only [splitWSAux, hc, Bool.false_eq_true, if_false]
      exact splitWSAux_acc_ne rest (c :: acc) (List.cons_ne_nil c acc)
    | true =>
      simp only [splitWSAux, hc, if_true]
      obtain ⟨c0, hm, h0⟩ := h
      rcases List.mem_cons.mp hm with hEq | hmem
      · rw [hEq] at h0
        rw [h0] at hc
        exact absurd hc (by simp)
      · intro hnil
        exact ih [] ⟨c0, hmem, h0⟩ (List.append_eq_nil.mp hnil).2

/-- Consuming a whitespace-free token prefix just accumulates it
(reversed) into the accumulator. -/
theorem splitWSAux_token_append (t : List Char)
    (ht : ∀ c ∈ t, pySpace c = false) :
    ∀ s acc : List Char, splitWSAux (t ++ s) acc = splitWSAux s (t.reverse ++ acc) := by
  induction t with
  | nil => intro s acc; simp
  | cons c t ih =>
    intro s acc
    have hc : pySpace c = false := ht c (List.mem_cons_self c t)
    have ht' : ∀ x ∈ t, pySpace x = false := fun x hx => ht x (List.mem_cons_of_mem c hx)
    have step : splitWSAux ((c :: t) ++ s) acc = splitWSAux (t ++ s) (c :: acc) := by
      show splitWSAux (c :: (t ++ s)) acc = splitWSAux (t ++ s) (c :: acc)
      simp only [splitWSAux, hc, Bool.false_eq_true, if_false]
    rw [step, ih ht' s (c :: acc)]
    simp [List.reverse_cons, List.append_assoc]

/-- Splitting a single nonempty whitespace-free token returns just that
token. -/
theorem splitWS_token (t : List Char) (hne : t ≠ [])
    (ht : ∀ c ∈ t, pySpace c = false) : splitWS t = [t] := by
  have h := splitWSAux_token_append t ht [] []
  rw [List.append_nil] at h
  rw [splitWS, h]
  show flushAcc (t.reverse ++ []) = [t]
  rw [List.append_nil]
  exact flushAcc_reverse t hne

/-- Splitting the single-space join of nonempty whitespace-free tokens
recovers exactly those tokens. -/
theorem splitWS_joinSp (ts : List (List Char))
    (h : ∀ t ∈ ts, t ≠ [] ∧ ∀ c ∈ t, pySpace c = false) :
    splitWS (joinSp ts) = ts := by
  induction ts with
  | nil => rfl
  | cons t rest ih =>
    cases rest with
    | nil =>
      obtain ⟨hne, ht⟩ := h t (List.mem_cons_self t [])
      exact splitWS_token t hne ht
    | cons t2 ts2 =>
      obtain ⟨hne, ht⟩ := h t (List.mem_cons_self t (t2 :: ts2))
      have hrest : ∀ u ∈ t2 :: ts2, u ≠ [] ∧ ∀ c ∈ u, pySpace c = false :=
        fun u hu => h u (List.mem_cons_of_mem t hu)
      show splitWS (t ++ ' ' :: joinSp (t2 :: ts2)) = t :: t2 :: ts2
      rw [splitWS, splitWSAux_token_append t ht, List.append_nil]
      show (if pySpace ' ' = true then
          flushAcc t.reverse ++ splitWSAux (joinSp (t2 :: ts2)) []
        else splitWSAux (joinSp (t2 :: ts2)) (' ' :: t.reverse)) = t :: t2 :: ts2
      rw [if_pos (by decide)]
      rw [flushAcc_reverse t hne]
      rw [show splitWSAux (joinSp (t2 :: ts2)) [] = splitWS (joinSp (t2 :: ts2)) from rfl]
      rw [ih hrest]
      rfl

/-- Tokens flushed from a whitespace-free accumulator are nonempty and
whitespace-free. -/
theorem flushAcc_tokens (acc : List Char) (hacc : ∀ c ∈ acc, pySpace c = false) :
    ∀ t ∈ flushAcc acc, t ≠ [] ∧ ∀ c ∈ t, pySpace c = false := by
  cases acc with
  | nil => intro t htm; simp [flushAcc] at htm
  | cons a as =>
    intro t htm
    simp only [flushAcc, List.mem_singleton] at htm
    subst htm
    exact ⟨by simp, fun c hcm => hacc c (List.mem_reverse.mp hcm)⟩

/-- Every token the splitter produces is nonempty and whitespace-free. -/
theorem splitWSAux_tokens (s : List Char) :
    ∀ acc, (∀ c ∈ acc, pySpace c = false) →
      ∀ t ∈ splitWSAux s acc, t ≠ [] ∧ ∀ c ∈ t, pySpace c = false := by
  induction s with
  | nil => exact fun acc hacc => flushAcc_tokens acc hacc
  | cons c rest ih =>
    intro acc hacc t htm
    cases hc : pySpace c with
    | true =>
      rw [splitWSAux, if_pos (by rw [hc])] at htm
      rcases List.mem_append.mp htm with hl | hr
      · exact flushAcc_tokens acc hacc t hl
      · exact ih [] (by simp) t hr
    | false =>
      rw [splitWSAux, if_neg (by rw [hc]; simp)] at htm
      refine ih (c :: acc) ?_ t htm
      intro x hx
      rcases List.mem_cons.mp hx with h1 | h2
      · rw [h1]; exact hc
      · exact hacc x h2

/-- Every token of `splitWS` is nonempty and whitespace-free. -/
theorem splitWS_tokens (s : List Char) :
    ∀ t ∈ splitWS s, t ≠ [] ∧ ∀ c ∈ t, pySpace c = false :=
  splitWSAux_tokens s [] (by simp)

/-- Split-then-join is idempotent. -/
theorem joinSp_splitWS_idem (s : List Char) :
    joinSp (splitWS (joinSp (splitWS s))) = joinSp (splitWS s) := by
  rw [splitWS_joinSp (splitWS s) (splitWS_tokens s)]

/-- The character list underlying `String.mk`. -/
theorem string_data_mk (l : List Char) : (String.mk l).data = l := rfl

/-- Keyword extraction followed by query building is split-then-join on
the underlying characters. -/
theorem extract_generate_eq (q : String) :
    generate_search_query (extract_keywords q) =
      String.mk (joinSp (splitWS q.data)) := by
  unfold generate_search_query extract_keywords
  rw [List.map_map,
    show ((fun k : String => k.data) ∘ fun t : List Char => String.mk t) = id from rfl,
    List.map_id]

/-- C7: for every query containing a non-whitespace character,
`extract_keywords` returns at least one token; extract-then-build is
idempotent (re-splitting and re-joining the built query reproduces it,
i.e. building reproduces the query up to whitespace normalization); and
on whitespace-normalized input (a single-space join of nonempty
whitespace-free tokens) the extract-then-build round trip is the
identity. -/
theorem keywords_roundtrip (q : String)
    (h : ∃ c ∈ q.data, pySpace c = false) :
    extract_keywords q ≠ [] ∧
    generate_search_query (extract_keywords (generate_search_query (extract_keywords q))) =
      generate_search_query (extract_keywords q) ∧
    ∀ ts : List String,
      (∀ t ∈ ts, t.data ≠ [] ∧ ∀ c ∈ t.data, pySpace c = false) →
      generate_search_query (extract_keywords (generate_search_query ts)) =
        generate_search_query ts := by
  refine ⟨?_, ?_, ?_⟩
  · rw [extract_keywords]
    intro hnil
    exact splitWSAux_ne_nil q.data [] h (List.map_eq_nil.mp hnil)
  · rw [extract_generate_eq q, extract_generate_eq, string_data_mk,
      joinSp_splitWS_idem]
  · intro ts hts
    rw [extract_generate_eq, generate_search_query, string_data_mk]
    refine congrArg String.mk ?_
    rw [splitWS_joinSp (ts.map fun k => k.data)]
    intro t htm
    obtain ⟨u, hu, hut⟩ := List.mem_map.mp htm
    rw [← hut]
    exact hts u hu

/-- C7 witness at the query " solar  eclipse 2026 ". -/
theorem keywords_roundtrip_witness :
    extract_keywords " solar  eclipse 2026 " ≠ [] ∧
    generate_search_query (extract_keywords
        (generate_search_query (extract_keywords " solar  eclipse 2026 "))) =
      generate_search_query (extract_keywords " solar  eclipse 2026 ") ∧
    ∀ ts : List String,
      (∀ t ∈ ts, t.data ≠ [] ∧ ∀ c ∈ t.data, pySpace c = false) →
      generate_search_query (extract_keywords (generate_search_query ts)) =
        generate_search_query ts :=
  keywords_roundtrip " solar  eclipse 2026 " (by decide)

/-- Any fuel at least the string length computes the same result as fuel
exactly the string length. -/
theorem pyReplaceAux_fuel (rep pat : List Char) :
    ∀ fuel (s : List Char), s.length ≤ fuel →
      pyReplaceAux rep fuel s pat = pyReplaceAux rep s.length s pat := by
  intro fuel
  induction fuel using Nat.strong_induction_on with
  | _ fuel ih =>
    intro s hs
    cases fuel with
    | zero =>
      have hnil : s = [] := List.length_eq_zero.mp (Nat.le_zero.mp hs)
      subst hnil
      cases pat <;> rfl
    | succ fuel =>
      cases s with
      | nil => cases pat <;> rfl
      | cons c rest =>
        cases pat with
        | nil => rfl
        | cons p ps =>
          have hrest : rest.length ≤ fuel := by
            simp only [List.length_cons] at hs
            omega
          have hdropf : (rest.drop ps.length).length ≤ fuel := by
            rw [List.length_drop]
            omega
          have hdropr : (rest.drop ps.length).length ≤ rest.length := by
            rw [List.length_drop]
            omega
          show (if (p :: ps).isPrefixOf (c :: rest) then
              rep ++ pyReplaceAux rep fuel (rest.drop ps.length) (p :: ps)
            else c :: pyReplaceAux rep fuel rest (p :: ps)) =
            (if (p :: ps).isPrefixOf (c :: rest) then
              rep ++ pyReplaceAux rep rest.length (rest.drop ps.length) (p :: ps)
            else c :: pyReplaceAux rep rest.length rest (p :: ps))
          rw [ih fuel (Nat.lt_succ_self fuel) (rest.drop ps.length) hdropf,
            ih fuel (Nat.lt_succ_self fuel) rest hrest,
            ih rest.length (Nat.lt_succ_of_le hrest) (rest.drop ps.length) hdropr]

/-- `pyReplace` on the empty string. -/
theorem pyReplace_nil (pat rep : List Char) : pyReplace [] pat rep = [] := by
  cases pat <;> rfl

/-- Unfolding `pyReplace` on a cons cell. -/
theorem pyReplace_cons (c : Char) (rest : List Char) (p : Char)
    (ps rep : List Char) :
    pyReplace (c :: rest) (p :: ps) rep =
      if (p :: ps).isPrefixOf (c :: rest) then
        rep ++ pyReplace (rest.drop ps.length) (p :: ps) rep
      else c :: pyReplace rest (p :: ps) rep := by
  show (if (p :: ps).isPrefixOf (c :: rest) then
      rep ++ pyReplaceAux rep rest.length (rest.drop ps.length) (p :: ps)
    else c :: pyReplaceAux rep rest.length rest (p :: ps)) = _
  rw [pyReplaceAux_fuel rep (p :: ps) rest.length (rest.drop ps.length)
      (by rw [List.length_drop]; omega)]
  rfl

/-- Unfolding `pyReplace` for a single-character pattern. -/
theorem pyReplace_cons_one (c : Char) (rest rep : List Char) (p : Char) :
    pyReplace (c :: rest) [p] rep =
      if p = c then rep ++ pyReplace rest [p] rep
      else c :: pyReplace rest [p] rep := by
  rw [pyReplace_cons]
  simp [List.isPrefixOf]

/-- After replacing every `$`, no `$` remains (the replacement contains
none). -/
theorem dollar_not_mem_pyReplace (rep : List Char) (hrep : '$' ∉ rep) :
    ∀ s : List Char, '$' ∉ pyReplace s ['$'] rep := by
  intro s
  induction s with
  | nil => simp [pyReplace_nil]
  | cons c rest ih =>
    rw [pyReplace_cons_one]
    by_cases hc : '$' = c
    · rw [if_pos hc]
      intro hmem
      rcases List.mem_append.mp hmem with h1 | h2
      · exact hrep h1
      · exact ih h2
    · rw [if_neg hc]
      intro hmem
      rcases List.mem_cons.mp hmem with h1 | h2
      · exact hc h1
      · exact ih h2

/-- Replacing a pattern that starts with `$` in a `$`-free string is the
identity. -/
theorem pyReplace_dollar_head_id (ps rep : List Char) :
    ∀ s : List Char, '$' ∉ s → pyReplace s ('$' :: ps) rep = s := by
  intro s
  induction s with
  | nil => exact fun _ => pyReplace_nil _ _
  | cons c rest ih =>
    intro h
    have hc : ¬ ('$' = c) := fun hEq => h (List.mem_cons.mpr (Or.inl hEq))
    have hpre : (('$' :: ps).isPrefixOf (c :: rest)) = false := by
      simp [List.isPrefixOf, hc]
    rw [pyReplace_cons, hpre]
    simp only [Bool.false_eq_true, if_false]
    rw [ih fun hm => h (List.mem_cons_of_mem c hm)]

/-- Single-character replacement with a replacement of length at most 2
at most doubles the length. -/
theorem length_pyReplace_single_le (rep : List Char) (h2 : rep.length ≤ 2) :
    ∀ s : List Char, (pyReplace s ['$'] rep).length ≤ 2 * s.length := by
  intro s
  induction s with
  | nil => simp [pyReplace_nil]
  | cons c rest ih =>
    rw [pyReplace_cons_one]
    by_cases hc : '$' = c
    · rw [if_pos hc]
      simp only [List.length_append, List.length_cons]
      omega
    · rw [if_neg hc]
      simp only [List.length_cons]
      omega

/-- `render_latex` is exactly the first replacement `$` → `\(`: after it
no `$` remains, so the two `$$` replacements written after it in the
source can never fire. -/
theorem render_latex_eq_single (t : List Char) :
    render_latex t = pyReplace t ['$'] ['\\', '('] := by
  have hD : "$".data = ['$'] := rfl
  have hDD : "$$".data = ['$', '$'] := rfl
  have hP : "\\(".data = ['\\', '('] := rfl
  rw [render_latex, hD, hDD, hP]
  have h1 : '$' ∉ pyReplace t ['$'] ['\\', '('] :=
    dollar_not_mem_pyReplace ['\\', '('] (by decide) t
  rw [pyReplace_dollar_head_id ['$'] _ _ h1]
  exact pyReplace_dollar_head_id ['$'] _ _ h1

/-- `render_latex` at most doubles the length of its input. -/
theorem render_latex_length_le (t : List Char) :
    (render_latex t).length ≤ 2 * t.length := by
  rw [render_latex_eq_single]
  exact length_pyReplace_single_le ['\\', '('] (by decide) t

/-- The post-processing of a truncated model response is at most 600
characters (each of the at most 300 characters escapes to at most 2). -/
theorem render_take_600 (s : List Char) :
    (render_latex (s.take 300)).length ≤ 600 := by
  have hle := render_latex_length_le (s.take 300)
  have htk : (s.take 300).length ≤ 300 := by
    rw [List.length_take]
    exact min_le_left 300 s.length
  omega

/-- C2 (amended): for every successful `summarize_results` run the
delivered summary has length at most 600: the model response is truncated
to 300 characters first, and the `$` → `\(` escaping afterwards expands
each character to at most two.  The claimed 300-character cap holds for
the truncated text, not for the escaped result. -/
theorem summary_length_le_600 (env : Env) (results : List SearchResult)
    (att : List String) (summary : String) (sources : List String)
    (h : summarize_results env results = (att, .ok (summary, sources))) :
    summary.data.length ≤ 600 := by
  simp only [summarize_results] at h
  split at h
  · simp at h
  · split at h
    · simp at h
    · split at h
      · simp at h
      · split at h
        · simp at h
        · simp only [Prod.mk.injEq, Except.ok.injEq] at h
          obtain ⟨-, h2, -⟩ := h
          rw [← h2]
          simp only [renderLatexStr, strTake, string_data_mk]
          exact render_take_600 _

/-- Length of replacing `$` by `\(` in a string of `n` dollar signs. -/
theorem pyReplace_replicate_len (n : Nat) :
    (pyReplace (List.replicate n '$') ['$'] ['\\', '(']).length = 2 * n := by
  induction n with
  | zero => simp [pyReplace_nil]
  | succ m ih =>
    rw [List.replicate_succ, pyReplace_cons_one, if_pos rfl]
    simp only [List.length_append, ih, List.length_cons, List.length_nil]
    omega

/-- C2 counterexample: a successful run whose model response is 151
dollar signs survives the 300-character truncation untouched, and the
escaping then yields a 302-character summary, exceeding the claimed
300-character cap. -/
theorem summary_cap_refuted :
    (summarize_results c2Env [c2R]).2 =
      .ok (String.mk (render_latex (List.replicate 151 '$')), ["http://a"]) ∧
    300 < (String.mk (render_latex (List.replicate 151 '$'))).data.length := by
  constructor
  · decide
  · rw [string_data_mk, render_latex_eq_single, pyReplace_replicate_len]
    norm_num

/-- C2 witness: the amended 600-character bound at the counterexample
run. -/
theorem summary_length_le_600_witness :
    (String.mk (render_latex (List.replicate 151 '$'))).data.length ≤ 600 :=
  summary_length_le_600 c2Env [c2R] ["http://a"]
    (String.mk (render_latex (List.replicate 151 '$'))) ["http://a"] (by decide)

/-- C9: evaluating `render_latex` at "$$x$$".  Because the code replaces
every single `$` by `\(` first, no `$` remains for the two `$$`
replacements, so block delimiters are never converted to `\[` / `\]`:
the output is `\(\(x\(\(`, not `\[x\]`. -/
theorem renderLatex_block_eval :
    render_latex "$$x$$".data = "\\(\\(x\\(\\(".data ∧
    render_latex "$$x$$".data ≠ "\\[x\\]".data := by
  constructor <;> decide

/-- C4: when the upstream search API call returns an HTTP error status,
the synchronous `/search` transport raises an `HTTPException` whose
status code equals the upstream status and whose detail equals the
upstream body, and the streaming transport delivers a terminal
`{status: "Error", detail}` event whose detail equals the upstream body;
the failure is never swallowed. -/
theorem upstream_error_surfaced (env : Env) (query : String) (page : Int)
    (qp : String × Int)
    (halive : env.clientAliveAt = fun _ => true)
    (hr : env.recvd = .ok qp)
    (hs : 400 ≤ env.searchResp.statusCode) :
    search env query page =
      .httpException env.searchResp.statusCode env.searchResp.text ∧
    delivered (websocket_search env).finalSt =
      [Msg.plain "Extracting keywords...", Msg.plain "Generating search query...",
       Msg.plain "Performing search...", Msg.err "Error" env.searchResp.text] := by
  constructor
  · simp [hs, Bind.bind, Except.bind]
  · simp [halive, hr, hs]

/-- C4 witness: upstream HTTP 403 with body "Forbidden". -/
theorem upstream_error_surfaced_witness :
    search c4Env "q" 1 = .httpException 403 "Forbidden" ∧
    delivered (websocket_search c4Env).finalSt =
      [Msg.plain "Extracting keywords...", Msg.plain "Generating search query...",
       Msg.plain "Performing search...", Msg.err "Error" "Forbidden"] :=
  upstream_error_surfaced c4Env "q" 1 ("q", 1) rfl rfl (by decide)

/-- C10: when the filtered result set is empty (search response without
`items`), `summarize_results` fails by indexing the first element of the
empty list (`IndexError: list index out of range`), so both transports
terminate in an Error outcome — the synchronous endpoint with a 500
carrying that message, the streaming endpoint with a terminal Error event
and no `Completed`.  The model is a total function, so the run also
terminates (never hangs). -/
theorem empty_results_error (env : Env) (query : String) (page : Int)
    (qp : String × Int)
    (halive : env.clientAliveAt = fun _ => true)
    (hr : env.recvd = .ok qp)
    (hlt : env.searchResp.statusCode < 400)
    (hit : env.searchResp.items.getD [] = []) :
    (summarize_results env []).2 = .error (.other "list index out of range") ∧
    search env query page = .httpException 500 "list index out of range" ∧
    wsStatuses env =
      ["Extracting keywords...", "Generating search query...", "Performing search...",
       "Evaluating and filtering results...", "Google results ready",
       "Summarizing results...", "Error"] := by
  refine ⟨rfl, ?_, ?_⟩
  · simp [not_le.mpr hlt, hit, Bind.bind, Except.bind, evaluate_and_filter_results,
      summarize_results, fetchLoop]
  · simp [halive, hr, not_le.mpr hlt, hit, evaluate_and_filter_results,
      summarize_results, fetchLoop]

/-- C10 witness: a 200 search response with the `items` field absent. -/
theorem empty_results_error_witness :
    (summarize_results c10Env []).2 = .error (.other "list index out of range") ∧
    search c10Env "q" 1 = .httpException 500 "list index out of range" ∧
    wsStatuses c10Env =
      ["Extracting keywords...", "Generating search query...", "Performing search...",
       "Evaluating and filtering results...", "Google results ready",
       "Summarizing results...", "Error"] :=
  empty_results_error c10Env "q" 1 ("q", 1) rfl rfl (by decide) (by decide)

/-- C1: every streaming run that delivers the `Completed` status delivers
exactly the label sequence ["Extracting keywords...", "Generating search
query...", "Performing search...", "Evaluating and filtering results...",
"Google results ready", "Summarizing results...", "Completed"], each
exactly once, `Completed` last. -/
theorem streaming_success_trace (env : Env)
    (h : "Completed" ∈ wsStatuses env) :
    wsStatuses env =
      ["Extracting keywords...", "Generating search query...", "Performing search...",
       "Evaluating and filtering results...", "Google results ready",
       "Summarizing results...", "Completed"] := by
  cases h0 : env.clientAliveAt 0 with
  | false => simp +decide [h0] at h
  | true =>
  cases hr : env.recvd with
  | error e =>
    cases e with
    | wsDisconnect => simp +decide [h0, hr] at h
    | httpStatusError s b =>
      cases h1 : env.clientAliveAt 1 with
      | false => simp +decide [h0, h1, hr] at h
      | true => simp +decide [h0, h1, hr] at h
    | other m =>
      cases h1 : env.clientAliveAt 1 with
      | false => simp +decide [h0, h1, hr] at h
      | true => simp +decide [h0, h1, hr] at h
  | ok qp =>
  cases h1 : env.clientAliveAt 1 with
  | false => simp +decide [h0, h1, hr] at h
  | true =>
  cases h2 : env.clientAliveAt 2 with
  | false => simp +decide [h0, h1, h2, hr] at h
  | true =>
  cases h3 : env.clientAliveAt 3 with
  | false => simp +decide [h0, h1, h2, h3, hr] at h
  | true =>
  by_cases hs : (400 : Int) ≤ env.searchResp.statusCode
  · cases h4 : env.clientAliveAt 4 with
    | false => simp +decide [h0, h1, h2, h3, h4, hr, hs] at h
    | true => simp +decide [h0, h1, h2, h3, h4, hr, hs] at h
  · cases h4 : env.clientAliveAt 4 with
    | false => simp +decide [h0, h1, h2, h3, h4, hr, hs] at h
    | true =>
    cases h5 : env.clientAliveAt 5 with
    | false => simp +decide [h0, h1, h2, h3, h4, h5, hr, hs] at h
    | true =>
    cases h6 : env.clientAliveAt 6 with
    | false => simp +decide [h0, h1, h2, h3, h4, h5, h6, hr, hs] at h
    | true =>
    cases hsum : (summarize_results env
        (evaluate_and_filter_results (env.searchResp.items.getD []))).2 with
    | error e =>
      cases e with
      | wsDisconnect =>
        simp +decide [h0, h1, h2, h3, h4, h5, h6, hr, hs, hsum] at h
      | httpStatusError s b =>
        cases h7 : env.clientAliveAt 7 with
        | false => simp +decide [h0, h1, h2, h3, h4, h5, h6, h7, hr, hs, hsum] at h
        | true => simp +decide [h0, h1, h2, h3, h4, h5, h6, h7, hr, hs, hsum] at h
      | other m =>
        cases h7 : env.clientAliveAt 7 with
        | false => simp +decide [h0, h1, h2, h3, h4, h5, h6, h7, hr, hs, hsum] at h
        | true => simp +decide [h0, h1, h2, h3, h4, h5, h6, h7, hr, hs, hsum] at h
    | ok sp =>
      cases h7 : env.clientAliveAt 7 with
      | false => simp +decide [h0, h1, h2, h3, h4, h5, h6, h7, hr, hs, hsum] at h
      | true => simp +decide [h0, h1, h2, h3, h4, h5, h6, h7, hr, hs, hsum]

/-- C1 witness: a fully successful run delivers `Completed` and exactly
the specified label sequence. -/
theorem streaming_success_trace_witness :
    "Completed" ∈ wsStatuses c1Env ∧
    wsStatuses c1Env =
      ["Extracting keywords...", "Generating search query...", "Performing search...",
       "Evaluating and filtering results...", "Google results ready",
       "Summarizing results...", "Completed"] :=
  ⟨by decide, streaming_success_trace c1Env (by decide)⟩

/-- C5 (amended): when the client's disconnect is the first failure the
run encounters (receive parses, the search API does not error, and
summarization would succeed), the handler raises no unhandled error,
attempts no further sends after the one that observed the disconnect
(only the last recorded attempt can be undelivered), and the transport is
released exactly once — by the peer, the `finally` guard skipping the
server-side close. -/
theorem disconnect_first_failure_clean (env : Env) (d : Nat) (qp : String × Int)
    (hd : d < 8)
    (halive : env.clientAliveAt = fun n => decide (n < d))
    (hr : env.recvd = .ok qp)
    (hs : env.searchResp.statusCode < 400)
    (hsum : ∃ sp, (summarize_results env
        (evaluate_and_filter_results (env.searchResp.items.getD []))).2 =
        Except.ok sp) :
    (websocket_search env).unhandled = none ∧
    ((websocket_search env).finalSt.attempts.dropLast.all fun p => p.2) = true ∧
    (websocket_search env).finalSt.observedDisc = true ∧
    (websocket_search env).serverClosed = false := by
  obtain ⟨sp, hsp⟩ := hsum
  interval_cases d <;>
    simp +decide [halive, hr, hsp, not_le.mpr hs]

/-- C5 witness: disconnect right after the "Performing search..." event
in an otherwise successful run. -/
theorem disconnect_first_failure_clean_witness :
    (websocket_search c5EnvW).unhandled = none ∧
    ((websocket_search c5EnvW).finalSt.attempts.dropLast.all fun p => p.2) = true ∧
    (websocket_search c5EnvW).finalSt.observedDisc = true ∧
    (websocket_search c5EnvW).serverClosed = false :=
  disconnect_first_failure_clean c5EnvW 4 ("q", 1) (by norm_num) rfl rfl
    (by decide) ⟨("s", ["http://a"]), by decide⟩

/-- C5 counterexample: the client disconnects right after the "Performing
search..." event and the search API then returns HTTP 403: the
`except httpx.HTTPStatusError` handler attempts the Error-reporting send
on the already-closed connection (the last recorded attempt is
undelivered), and that send's failure escapes the handler as an unhandled
exception. -/
theorem disconnect_midrun_refuted :
    (websocket_search c5EnvC).finalSt.attempts.getLast? =
      some (Msg.err "Error" "denied", false) ∧
    (websocket_search c5EnvC).unhandled = some PyError.wsDisconnect := by
  constructor <;> decide

/-- The fetch loop of `summarize_results` stops at the first failing URL:
everything before it is fetched, nothing after it, and the error
propagates. -/
theorem fetchLoop_first_error (env : Env) (url : String) (post : List String)
    (e : PyError) :
    ∀ pre : List String, (∀ u ∈ pre, ∃ b, fetch_content env u = .ok b) →
      fetch_content env url = .error e →
      fetchLoop env (pre ++ url :: post) = (pre ++ [url], .error e) := by
  intro pre
  induction pre with
  | nil =>
    intro _ hurl
    simp [fetchLoop, hurl]
  | cons u pre ih =>
    intro hpre hurl
    obtain ⟨b, hb⟩ := hpre u (List.mem_cons_self u pre)
    have hrec := ih (fun v hv => hpre v (List.mem_cons_of_mem u hv)) hurl
    simp [fetchLoop, hb, hrec]

/-- C3 (amended): a fetch failure for one of the top-3 source URLs is not
isolated: it aborts `summarize_results` — the URLs after the failing one
are never fetched — and the failure propagates out of the stage, failing
the whole run. -/
theorem fetch_failure_aborts (env : Env) (results : List SearchResult)
    (pre post : List String) (url : String) (e : PyError)
    (hsrc : ((results.take 3).map fun r => r.link) = pre ++ url :: post)
    (hpre : ∀ u ∈ pre, ∃ b, fetch_content env u = .ok b)
    (hurl : fetch_content env url = .error e) :
    summarize_results env results = (pre ++ [url], .error e) := by
  simp only [summarize_results, hsrc]
  rw [fetchLoop_first_error env url post e pre hpre hurl]

/-- C3 counterexample: with two source URLs of which the first answers
404, the second URL is never fetched, the summarization stage returns the
fetch error instead of deciding how to treat missing content, and the
streaming run terminates in Error instead of completing. -/
theorem fetch_isolation_refuted :
    summarize_results c3Env [c3R1, c3R2] =
      (["http://a"], .error (.httpStatusError 404 "nf")) ∧
    wsStatuses c3Env =
      ["Extracting keywords...", "Generating search query...", "Performing search...",
       "Evaluating and filtering results...", "Google results ready",
       "Summarizing results...", "Error"] := by
  constructor <;> decide

/-- C3 witness: the amended abort behaviour at the 404 run. -/
theorem fetch_failure_aborts_witness :
    summarize_results c3Env [c3R1, c3R2] =
      (["http://a"], .error (.httpStatusError 404 "nf")) :=
  fetch_failure_aborts c3Env [c3R1, c3R2] [] ["http://b"] "http://a"
    (.httpStatusError 404 "nf") (by decide)
    (fun u hu => absurd hu (List.not_mem_nil u)) (by decide)
